import Mathlib

/-!
Verification of the DocuSign client modules `src/docusign/src/payments.rs` and
`src/docusign/src/connect_configurations.rs`.

Strings are embedded at the wire level as `List Char`.  The two source files
are embedded faithfully; collaborators that live outside the two files
(`crate::progenitor_support::encode_path`, `crate::types`, the shared HTTP
client, `serde_json`, `serde_urlencoded`) are modelled from the specification,
each such definition carrying a doc comment that says so.
-/

set_option maxHeartbeats 1000000

namespace Docusign

/-- Hexadecimal digit character (uppercase) for a value below 16. -/
def hexDigitChar (n : Nat) : Char :=
  if n < 10 then Char.ofNat (48 + n) else Char.ofNat (55 + n)

/-- Value of a hexadecimal digit character, if the character is one. -/
def hexVal (c : Char) : Option Nat :=
  if 48 ≤ c.toNat && c.toNat ≤ 57 then some (c.toNat - 48)
  else if 65 ≤ c.toNat && c.toNat ≤ 70 then some (c.toNat - 55)
  else if 97 ≤ c.toNat && c.toNat ≤ 102 then some (c.toNat - 87)
  else none

/-- Characters a path segment keeps literally: the RFC 3986 unreserved set. -/
def isUnreservedPathChar (c : Char) : Bool :=
  c.isAlphanum || c == '-' || c == '.' || c == '_' || c == '~'

/-- Modelled from the spec: `crate::progenitor_support::encode_path` is not
under `src/`; the spec states that every caller-supplied path segment "must be
percent-encoded before insertion into the URL path, to tolerate arbitrary
identifier characters."  Every reserved ASCII character becomes a `%XX`
escape; unreserved ASCII characters and non-ASCII characters (which are not
reserved URL characters) pass through literally. -/
def encodePathChar (c : Char) : List Char :=
  if isUnreservedPathChar c || 128 ≤ c.toNat then [c]
  else ['%', hexDigitChar (c.toNat / 16), hexDigitChar (c.toNat % 16)]

/-- Percent-encoding of a whole path segment, character by character. -/
def encode_path : List Char → List Char
  | [] => []
  | c :: cs => encodePathChar c ++ encode_path cs

/-- Percent-decoding, as the server applies it to a received path segment:
every well-formed `%XX` escape becomes the character with code `XX`; other
characters are kept literally. -/
def percentDecode : List Char → List Char
  | [] => []
  | c :: cs =>
    if c == '%' then
      match cs with
      | h :: l :: rest =>
        match hexVal h, hexVal l with
        | some a, some b => Char.ofNat (16 * a + b) :: percentDecode rest
        | _, _ => c :: percentDecode (h :: l :: rest)
      | [h] => c :: percentDecode [h]
      | [] => [c]
    else c :: percentDecode cs

/-- Characters kept literally by application/x-www-form-urlencoded encoding. -/
def isUnreservedFormChar (c : Char) : Bool :=
  c.isAlphanum || c == '*' || c == '-' || c == '.' || c == '_'

/-- Modelled from the spec: the `serde_urlencoded` crate is an external
collaborator, not under `src/`.  One character of a key or value in
application/x-www-form-urlencoded form: unreserved ASCII passes through, a
space becomes `+`, every other ASCII character becomes a `%XX` escape, and
non-ASCII characters (not reserved) pass through literally. -/
def formEncodeChar (c : Char) : List Char :=
  if isUnreservedFormChar c || 128 ≤ c.toNat then [c]
  else if c == ' ' then ['+']
  else ['%', hexDigitChar (c.toNat / 16), hexDigitChar (c.toNat % 16)]

/-- Form-urlencoding of a whole key or value, character by character. -/
def formEncode : List Char → List Char
  | [] => []
  | c :: cs => formEncodeChar c ++ formEncode cs

/-- Joining pieces with `&`, exactly as the enumerate loop of
`billing_get_payment_list` does: the first piece is written bare, every later
piece gets `&` in front. -/
def joinAmp : List (List Char) → List Char
  | [] => []
  | [x] => x
  | x :: xs => x ++ '&' :: joinAmp xs

/-- Modelled from the spec: `serde_urlencoded::to_string` on a sequence of
string pairs writes each pair as `key=value` with both sides form-urlencoded
and joins the pairs with `&`. -/
def serde_urlencoded_to_string (args : List (List Char × List Char)) : List Char :=
  joinAmp (args.map fun p => formEncode p.1 ++ '=' :: formEncode p.2)

/-- Form-urldecoding, as the server applies it to one key or value of a query
component: `+` becomes a space, every well-formed `%XX` escape becomes the
character with code `XX`, other characters are kept literally. -/
def formDecode : List Char → List Char
  | [] => []
  | c :: cs =>
    if c == '%' then
      match cs with
      | h :: l :: rest =>
        match hexVal h, hexVal l with
        | some a, some b => Char.ofNat (16 * a + b) :: formDecode rest
        | _, _ => c :: formDecode (h :: l :: rest)
      | [h] => c :: formDecode [h]
      | [] => [c]
    else if c == '+' then ' ' :: formDecode cs
    else c :: formDecode cs

/-- Splitting a query component at every `&`, as a server parses it. -/
def splitAmp : List Char → List (List Char)
  | [] => [[]]
  | c :: cs =>
    if c == '&' then [] :: splitAmp cs
    else
      match splitAmp cs with
      | [] => [[c]]
      | x :: xs => (c :: x) :: xs

/-- Splitting one `key=value` piece at its first `=`; a piece without `=` is
all key with an empty value. -/
def splitEq : List Char → List Char × List Char
  | [] => ([], [])
  | c :: cs =>
    if c == '=' then ([], cs)
    else (c :: (splitEq cs).1, (splitEq cs).2)

/-- The pairs a server reads off a query component: split at `&`, split each
piece at its first `=`, form-urldecode both sides.  An empty query component
carries no pairs. -/
def parseQuery (q : List Char) : List (List Char × List Char) :=
  if q.isEmpty then []
  else (splitAmp q).map fun piece => (formDecode (splitEq piece).1, formDecode (splitEq piece).2)

/-- HTTP verbs used by the two modules. -/
inductive Method
  | get
  | put
  | post
  | delete
deriving DecidableEq

/-- A request handed to the shared client: verb, URL (path plus query
component), and optional body bytes. -/
structure Request where
  method : Method
  url : List Char
  body : Option (List Nat)
deriving DecidableEq

/-- Modelled from the spec: `ConnectCustomConfiguration` from `crate::types`
(`types.rs` is not under `src/`) is "one Connect configuration's fields", a
flat record mirroring one JSON payload shape, used both as request body for
create/update and as response body; modelled with representative flat string
fields. -/
structure ConnectCustomConfiguration where
  connectId : List Char
  name : List Char
  urlToPublishTo : List Char
  allowEnvelopePublish : List Char
  enableLog : List Char
deriving DecidableEq

/-- Modelled from the spec: `ConnectConfigResults` from `crate::types` is a
flat response DTO whose content never influences request construction; it is
carried as an abstract decoded payload. -/
structure ConnectConfigResults where
  payload : List Nat
deriving DecidableEq

/-- Modelled from the spec: `IntegratedUserInfoList` from `crate::types`,
carried as an abstract decoded payload. -/
structure IntegratedUserInfoList where
  payload : List Nat
deriving DecidableEq

/-- Modelled from the spec: `BillingPaymentsResponse` from `crate::types`,
carried as an abstract decoded payload. -/
structure BillingPaymentsResponse where
  payload : List Nat
deriving DecidableEq

/-- Modelled from the spec: `BillingPaymentItem` from `crate::types`, carried
as an abstract decoded payload. -/
structure BillingPaymentItem where
  payload : List Nat
deriving DecidableEq

/-- Modelled from the spec: `BillingPaymentRequest` from `crate::types`, the
payment request body DTO, carried abstractly. -/
structure BillingPaymentRequest where
  payload : List Char
deriving DecidableEq

/-- Modelled from the spec: `BillingPaymentResponse` from `crate::types`,
carried as an abstract decoded payload. -/
structure BillingPaymentResponse where
  payload : List Nat
deriving DecidableEq

/-- Query-argument pieces built by `billing_get_payment_list`
(`src/docusign/src/payments.rs`, lines 36-43): raw `from_date=...` and
`to_date=...` strings, each pushed only when its argument is non-empty, in
this order. -/
def billing_get_payment_list_query_args (from_date to_date : List Char) : List (List Char) :=
  (if !from_date.isEmpty then ["from_date=".data ++ from_date] else []) ++
  (if !to_date.isEmpty then ["to_date=".data ++ to_date] else [])

/-- URL built by `billing_get_payment_list` (payments.rs, lines 50-54). -/
def billing_get_payment_list_url (account_id from_date to_date : List Char) : List Char :=
  "/v2.1/accounts/".data ++ encode_path account_id ++ "/billing_payments?".data ++
    joinAmp (billing_get_payment_list_query_args from_date to_date)

/-- Request issued by `billing_get_payment_list` (payments.rs, line 56): a
GET with no body. -/
def billing_get_payment_list_request (account_id from_date to_date : List Char) : Request :=
  { method := Method.get,
    url := billing_get_payment_list_url account_id from_date to_date,
    body := none }

/-- URL built by `billing_post_payment` (payments.rs, lines 82-85). -/
def billing_post_payment_url (account_id : List Char) : List Char :=
  "/v2.1/accounts/".data ++ encode_path account_id ++ "/billing_payments".data

/-- URL built by `billing_get_payment` (payments.rs, lines 114-118). -/
def billing_get_payment_url (account_id payment_id : List Char) : List Char :=
  "/v2.1/accounts/".data ++ encode_path account_id ++ "/billing_payments/".data ++
    encode_path payment_id

/-- Request issued by `billing_get_payment` (payments.rs, line 120): a GET
with no body. -/
def billing_get_payment_request (account_id payment_id : List Char) : Request :=
  { method := Method.get, url := billing_get_payment_url account_id payment_id, body := none }

/-- URL built by `connect_get_config`
(`src/docusign/src/connect_configurations.rs`, lines 32-35). -/
def connect_get_config_url (account_id : List Char) : List Char :=
  "/v2.1/accounts/".data ++ encode_path account_id ++ "/connect".data

/-- Request issued by `connect_get_config` (connect_configurations.rs, line
37): a GET with no body. -/
def connect_get_config_request (account_id : List Char) : Request :=
  { method := Method.get, url := connect_get_config_url account_id, body := none }

/-- URL built by `connect_put_configuration` (connect_configurations.rs,
lines 58-61). -/
def connect_put_configuration_url (account_id : List Char) : List Char :=
  "/v2.1/accounts/".data ++ encode_path account_id ++ "/connect".data

/-- URL built by `connect_post_configuration` (connect_configurations.rs,
lines 87-90). -/
def connect_post_configuration_url (account_id : List Char) : List Char :=
  "/v2.1/accounts/".data ++ encode_path account_id ++ "/connect".data

/-- URL built by `connect_get_config_connect_configurations`
(connect_configurations.rs, lines 117-121). -/
def connect_get_config_connect_configurations_url (account_id connect_id : List Char) :
    List Char :=
  "/v2.1/accounts/".data ++ encode_path account_id ++ "/connect/".data ++
    encode_path connect_id

/-- Request issued by `connect_get_config_connect_configurations`
(connect_configurations.rs, line 123): a GET with no body. -/
def connect_get_config_connect_configurations_request (account_id connect_id : List Char) :
    Request :=
  { method := Method.get,
    url := connect_get_config_connect_configurations_url account_id connect_id,
    body := none }

/-- URL built by `connect_delete_config` (connect_configurations.rs, lines
144-148). -/
def connect_delete_config_url (account_id connect_id : List Char) : List Char :=
  "/v2.1/accounts/".data ++ encode_path account_id ++ "/connect/".data ++
    encode_path connect_id

/-- Request issued by `connect_delete_config` (connect_configurations.rs,
line 150): a DELETE with no body. -/
def connect_delete_config_request (account_id connect_id : List Char) : Request :=
  { method := Method.delete,
    url := connect_delete_config_url account_id connect_id,
    body := none }

/-- Query pairs built by `connect_get_user` (connect_configurations.rs, lines
193-217): one pair per non-empty filter, in the enumerated filter order. -/
def connect_get_user_query_args (count email_substring list_included_users start_position
    status user_name_substring : List Char) : List (List Char × List Char) :=
  (if !count.isEmpty then [("count".data, count)] else []) ++
  (if !email_substring.isEmpty then [("email_substring".data, email_substring)] else []) ++
  (if !list_included_users.isEmpty then
    [("list_included_users".data, list_included_users)] else []) ++
  (if !start_position.isEmpty then [("start_position".data, start_position)] else []) ++
  (if !status.isEmpty then [("status".data, status)] else []) ++
  (if !user_name_substring.isEmpty then
    [("user_name_substring".data, user_name_substring)] else [])

/-- URL built by `connect_get_user` (connect_configurations.rs, lines
218-224): the query component comes from `serde_urlencoded::to_string`. -/
def connect_get_user_url (account_id connect_id count email_substring list_included_users
    start_position status user_name_substring : List Char) : List Char :=
  "/v2.1/accounts/".data ++ encode_path account_id ++ "/connect/".data ++
    encode_path connect_id ++ "/users?".data ++
    serde_urlencoded_to_string (connect_get_user_query_args count email_substring
      list_included_users start_position status user_name_substring)

/-- Request issued by `connect_get_user` (connect_configurations.rs, line
226): a GET with no body. -/
def connect_get_user_request (account_id connect_id count email_substring list_included_users
    start_position status user_name_substring : List Char) : Request :=
  { method := Method.get,
    url := connect_get_user_url account_id connect_id count email_substring
      list_included_users start_position status user_name_substring,
    body := none }

/-- Modelled from the spec: the flat error taxonomy of section 7 — transport
errors, status errors carrying the code and the response body, and
serialization errors, each surfaced distinctly. -/
inductive ApiError
  | transportFailure (msg : List Char)
  | statusError (code : Nat) (respBody : List Nat)
  | serialization
deriving DecidableEq

/-- What a call leaves the caller with: a value, an error value, or a panic (a
failed `unwrap`), which reaches the caller as no value at all. -/
inductive Outcome (α : Type)
  | ok (value : α)
  | err (e : ApiError)
  | panicked
deriving DecidableEq

/-- Lifting the collaborator's answer into the caller's view: the value and
any error are both passed through unmodified. -/
def liftClient {α : Type} : Except ApiError α → Outcome α
  | Except.ok v => Outcome.ok v
  | Except.error e => Outcome.err e

/-- Modelled from the spec: `serde_json::to_vec` (an external collaborator)
may fail to encode a request body, so the body serializer is carried as a
fallible function from the body DTO to bytes. -/
def Serializer (α : Type) : Type :=
  α → Except Unit (List Nat)

/-- Embedding of `connect_put_configuration` (connect_configurations.rs,
lines 53-66): the body is serialized with the `?` operator, so an encoding
failure returns the serialization error to the caller; otherwise the
collaborator's PUT answer is returned as is. -/
def connect_put_configuration (respond : Request → Except ApiError ConnectCustomConfiguration)
    (ser : Serializer ConnectCustomConfiguration) (account_id : List Char)
    (body : ConnectCustomConfiguration) : Outcome ConnectCustomConfiguration :=
  match ser body with
  | Except.error _ => Outcome.err ApiError.serialization
  | Except.ok bytes =>
    liftClient (respond
      { method := Method.put, url := connect_put_configuration_url account_id,
        body := some bytes })

/-- Embedding of `connect_post_configuration` (connect_configurations.rs,
lines 82-94): the body is serialized with the `?` operator, so an encoding
failure returns the serialization error to the caller; otherwise the
collaborator's POST answer is returned as is. -/
def connect_post_configuration (respond : Request → Except ApiError ConnectCustomConfiguration)
    (ser : Serializer ConnectCustomConfiguration) (account_id : List Char)
    (body : ConnectCustomConfiguration) : Outcome ConnectCustomConfiguration :=
  match ser body with
  | Except.error _ => Outcome.err ApiError.serialization
  | Except.ok bytes =>
    liftClient (respond
      { method := Method.post, url := connect_post_configuration_url account_id,
        body := some bytes })

/-- Embedding of `billing_post_payment` (payments.rs, lines 77-93): the body
is serialized with `.unwrap()`, so an encoding failure panics instead of
returning an error; otherwise the collaborator's POST answer is returned as
is. -/
def billing_post_payment (respond : Request → Except ApiError BillingPaymentResponse)
    (ser : Serializer BillingPaymentRequest) (account_id : List Char)
    (body : BillingPaymentRequest) : Outcome BillingPaymentResponse :=
  match ser body with
  | Except.error _ => Outcome.panicked
  | Except.ok bytes =>
    liftClient (respond
      { method := Method.post, url := billing_post_payment_url account_id,
        body := some bytes })

/-- Response from the wire: HTTP status code and raw body bytes. -/
structure HttpResponse where
  statusCode : Nat
  respBody : List Nat
deriving DecidableEq

/-- Modelled from the spec: the shared client (not under `src/`) turns a 2xx
DELETE response into a unit success, any non-2xx status into a status error
carrying the code and body, and a transport failure into a transport error;
`connect_delete_config` (connect_configurations.rs, lines 143-151) hands that
outcome straight to the caller. -/
def connect_delete_config (wire : Request → Except (List Char) HttpResponse)
    (account_id connect_id : List Char) : Outcome Unit :=
  match wire (connect_delete_config_request account_id connect_id) with
  | Except.error msg => Outcome.err (ApiError.transportFailure msg)
  | Except.ok resp =>
    if 200 ≤ resp.statusCode ∧ resp.statusCode < 300 then Outcome.ok ()
    else Outcome.err (ApiError.statusError resp.statusCode resp.respBody)

/-- Embedding of `connect_get_config` (connect_configurations.rs, lines
28-38): one GET through the shared client, whose answer — value or error —
is returned as is. -/
def connect_get_config (respond : Request → Except ApiError ConnectConfigResults)
    (account_id : List Char) : Outcome ConnectConfigResults :=
  liftClient (respond (connect_get_config_request account_id))

/-- Embedding of `connect_get_config_connect_configurations`
(connect_configurations.rs, lines 112-124): one GET through the shared
client, whose answer is returned as is. -/
def connect_get_config_connect_configurations
    (respond : Request → Except ApiError ConnectConfigResults)
    (account_id connect_id : List Char) : Outcome ConnectConfigResults :=
  liftClient (respond (connect_get_config_connect_configurations_request account_id connect_id))

/-- Embedding of `connect_get_user` (connect_configurations.rs, lines
182-227): one GET through the shared client, whose answer is returned as
is. -/
def connect_get_user (respond : Request → Except ApiError IntegratedUserInfoList)
    (account_id connect_id count email_substring list_included_users start_position
    status user_name_substring : List Char) : Outcome IntegratedUserInfoList :=
  liftClient (respond (connect_get_user_request account_id connect_id count email_substring
    list_included_users start_position status user_name_substring))

/-- Embedding of `billing_get_payment_list` (payments.rs, lines 30-57): one
GET through the shared client, whose answer is returned as is. -/
def billing_get_payment_list (respond : Request → Except ApiError BillingPaymentsResponse)
    (account_id from_date to_date : List Char) : Outcome BillingPaymentsResponse :=
  liftClient (respond (billing_get_payment_list_request account_id from_date to_date))

/-- Embedding of `billing_get_payment` (payments.rs, lines 109-121): one GET
through the shared client, whose answer is returned as is. -/
def billing_get_payment (respond : Request → Except ApiError BillingPaymentItem)
    (account_id payment_id : List Char) : Outcome BillingPaymentItem :=
  liftClient (respond (billing_get_payment_request account_id payment_id))

/-- Minimal JSON value universe for the DTO codec. -/
inductive Json
  | str (s : List Char)
  | obj (fields : List (List Char × Json))

/-- Modelled from the spec: serde serializes `ConnectCustomConfiguration` as
a flat JSON object with one string field per record field. -/
def ConnectCustomConfiguration.toJson (r : ConnectCustomConfiguration) : Json :=
  Json.obj [("connectId".data, Json.str r.connectId),
    ("name".data, Json.str r.name),
    ("urlToPublishTo".data, Json.str r.urlToPublishTo),
    ("allowEnvelopePublish".data, Json.str r.allowEnvelopePublish),
    ("enableLog".data, Json.str r.enableLog)]

/-- String content of a JSON value, when it is a string. -/
def Json.asStr : Json → Option (List Char)
  | Json.str s => some s
  | _ => none

/-- String field of a JSON object, looked up by name. -/
def Json.fieldStr : Json → List Char → Option (List Char)
  | Json.obj fields, k =>
    match fields.lookup k with
    | some v => v.asStr
    | none => none
  | _, _ => none

/-- Modelled from the spec: serde decodes a `ConnectCustomConfiguration` from
a JSON object by field name, requiring every field. -/
def ConnectCustomConfiguration.fromJson (j : Json) : Option ConnectCustomConfiguration :=
  match j.fieldStr "connectId".data, j.fieldStr "name".data,
      j.fieldStr "urlToPublishTo".data, j.fieldStr "allowEnvelopePublish".data,
      j.fieldStr "enableLog".data with
  | some a, some b, some c, some d, some f => some ⟨a, b, c, d, f⟩
  | _, _, _, _, _ => none

/-- Modelled from the spec: `serde_urlencoded::to_string` serializes only
values shaped as a sequence of key-value string pairs and fails on any other
shape; `connect_get_user` always hands it such a sequence. -/
inductive UrlEncodedInput
  | pairSeq (args : List (List Char × List Char))
  | otherShape

/-- Fallible form of the form-urlencoded serializer, as `connect_get_user`
calls it before `.unwrap()`. -/
def serde_urlencoded_to_string_result : UrlEncodedInput → Option (List Char)
  | UrlEncodedInput.pairSeq args => some (serde_urlencoded_to_string args)
  | UrlEncodedInput.otherShape => none

/-- Segment-terminating characters of a URL: the next path separator or the
query marker. -/
def isSegmentEnd (c : Char) : Bool :=
  c == '/' || c == '?'

/-- First path segment of a URL remainder: everything before the next `/` or
`?`. -/
def firstSegment (s : List Char) : List Char :=
  s.takeWhile fun c => !isSegmentEnd c

/-- A sample configuration body used for concrete evaluations. -/
def sampleConfig : ConnectCustomConfiguration :=
  { connectId := "1".data, name := "n".data, urlToPublishTo := "u".data,
    allowEnvelopePublish := "t".data, enableLog := "f".data }

/-- A sample payment body used for concrete evaluations. -/
def samplePaymentBody : BillingPaymentRequest :=
  { payload := [] }

/-- A body serializer that always fails, exercising the encoding-failure
path of the configuration operations. -/
def serFailConnect : Serializer ConnectCustomConfiguration :=
  fun _ => Except.error ()

/-- A body serializer that always fails, exercising the encoding-failure
path of `billing_post_payment`. -/
def serFailPayment : Serializer BillingPaymentRequest :=
  fun _ => Except.error ()

/-- A body serializer that always produces an empty byte body. -/
def serOkPayment : Serializer BillingPaymentRequest :=
  fun _ => Except.ok []

/-- A client that answers every request with a fixed decoded configuration. -/
def respondOkConnect : Request → Except ApiError ConnectCustomConfiguration :=
  fun _ => Except.ok sampleConfig

/-- A client that answers every request with a fixed decoded payment
response. -/
def respondOkPayment : Request → Except ApiError BillingPaymentResponse :=
  fun _ => Except.ok { payload := [] }

/-- A client that fails every request with a transport error. -/
def respondTransportPayment : Request → Except ApiError BillingPaymentResponse :=
  fun _ => Except.error (ApiError.transportFailure "boom".data)

/-- A wire that answers every request with HTTP 200 and an empty body. -/
def wire200 : Request → Except (List Char) HttpResponse :=
  fun _ => Except.ok { statusCode := 200, respBody := [] }

/-- A wire that answers every request with HTTP 404. -/
def wire404 : Request → Except (List Char) HttpResponse :=
  fun _ => Except.ok { statusCode := 404, respBody := [7] }

/-- A wire that fails every request with a transport error. -/
def wireFail : Request → Except (List Char) HttpResponse :=
  fun _ => Except.error "down".data

/-- A client that fails every configuration-list request with a status
error. -/
def respondErrConfigResults : Request → Except ApiError ConnectConfigResults :=
  fun _ => Except.error (ApiError.statusError 500 [1])

/-- A client that fails every user-list request with a transport error. -/
def respondErrUserList : Request → Except ApiError IntegratedUserInfoList :=
  fun _ => Except.error (ApiError.transportFailure "down".data)

/-- A client that fails every payment-list request with a serialization
(response-decoding) error. -/
def respondErrPaymentsList : Request → Except ApiError BillingPaymentsResponse :=
  fun _ => Except.error ApiError.serialization

/-- A client that fails every single-payment request with a status error. -/
def respondErrPaymentItem : Request → Except ApiError BillingPaymentItem :=
  fun _ => Except.error (ApiError.statusError 403 [])

theorem hexVal_hexDigitChar : ∀ n, n < 16 → hexVal (hexDigitChar n) = some n := by
  decide

theorem hexDigitChar_ne : ∀ n, n < 16 → hexDigitChar n ≠ '%' ∧ hexDigitChar n ≠ '&' ∧
    hexDigitChar n ≠ '=' ∧ hexDigitChar n ≠ '/' ∧ hexDigitChar n ≠ '?' ∧
    hexDigitChar n ≠ '+' := by
  decide

/-- Decoding a list headed by a non-escape character peels that character off. -/
theorem percentDecode_cons_of_ne (c : Char) (cs : List Char) (hc : c ≠ '%') :
    percentDecode (c :: cs) = c :: percentDecode cs := by
  have hb : (c == '%') = false := by simp [hc]
  rw [percentDecode.eq_def]
  simp [hb]

/-- Decoding the encoding of one character peels that character off. -/
theorem percentDecode_encodePathChar (c : Char) (rest : List Char) :
    percentDecode (encodePathChar c ++ rest) = c :: percentDecode rest := by
  unfold encodePathChar
  by_cases hlit : (isUnreservedPathChar c || 128 ≤ c.toNat : Bool) = true
  · rw [if_pos hlit]
    have hc : c ≠ '%' := by
      rintro rfl
      simp [isUnreservedPathChar] at hlit
    simpa using percentDecode_cons_of_ne c rest hc
  · rw [if_neg hlit]
    have hlow : c.toNat < 128 := by
      rcases Nat.lt_or_ge c.toNat 128 with h | h
      · exact h
      · exact absurd (by simp [h]) hlit
    have hdiv : c.toNat / 16 < 16 := by omega
    have hmod : c.toNat % 16 < 16 := Nat.mod_lt _ (by omega)
    simp only [List.cons_append, List.nil_append, percentDecode, beq_self_eq_true, if_true,
      hexVal_hexDigitChar _ hdiv, hexVal_hexDigitChar _ hmod]
    rw [Nat.div_add_mod c.toNat 16, Char.ofNat_toNat]
    simp

/-- The server recovers exactly the caller's original identifier from its
percent-encoding. -/
theorem percentDecode_encode_path (s : List Char) : percentDecode (encode_path s) = s := by
  induction s with
  | nil => rfl
  | cons c cs ih => rw [encode_path, percentDecode_encodePathChar, ih]

theorem formDecode_cons_of_ne (c : Char) (cs : List Char) (hc : c ≠ '%') (hp : c ≠ '+') :
    formDecode (c :: cs) = c :: formDecode cs := by
  have hb : (c == '%') = false := by simp [hc]
  have hb2 : (c == '+') = false := by simp [hp]
  rw [formDecode.eq_def]
  simp [hb, hb2]

/-- Decoding the form-encoding of one character peels that character off. -/
theorem formDecode_formEncodeChar (c : Char) (rest : List Char) :
    formDecode (formEncodeChar c ++ rest) = c :: formDecode rest := by
  unfold formEncodeChar
  by_cases hlit : (isUnreservedFormChar c || 128 ≤ c.toNat : Bool) = true
  · rw [if_pos hlit]
    have hc : c ≠ '%' := by
      rintro rfl
      simp [isUnreservedFormChar] at hlit
    have hp : c ≠ '+' := by
      rintro rfl
      simp [isUnreservedFormChar] at hlit
    simpa using formDecode_cons_of_ne c rest hc hp
  · rw [if_neg hlit]
    by_cases hsp : (c == ' ') = true
    · rw [if_pos hsp]
      have : c = ' ' := by simpa using hsp
      subst this
      rw [formDecode.eq_def]
      simp
    · rw [if_neg hsp]
      have hlow : c.toNat < 128 := by
        rcases Nat.lt_or_ge c.toNat 128 with h | h
        · exact h
        · exact absurd (by simp [h]) hlit
      have hdiv : c.toNat / 16 < 16 := by omega
      have hmod : c.toNat % 16 < 16 := Nat.mod_lt _ (by omega)
      simp only [List.cons_append, List.nil_append, formDecode, beq_self_eq_true, if_true,
        hexVal_hexDigitChar _ hdiv, hexVal_hexDigitChar _ hmod]
      rw [Nat.div_add_mod c.toNat 16, Char.ofNat_toNat]
      simp

/-- The server recovers exactly the original key or value from its
form-urlencoding. -/
theorem formDecode_formEncode (s : List Char) : formDecode (formEncode s) = s := by
  induction s with
  | nil => rfl
  | cons c cs ih => rw [formEncode, formDecode_formEncodeChar, ih]

/-- Form-encoding one character never emits the separators `&` or `=`. -/
theorem formEncodeChar_chars (c : Char) :
    '&' ∉ formEncodeChar c ∧ '=' ∉ formEncodeChar c := by
  unfold formEncodeChar
  by_cases hlit : (isUnreservedFormChar c || 128 ≤ c.toNat : Bool) = true
  · rw [if_pos hlit]
    constructor <;>
      · simp only [List.mem_singleton]
        rintro rfl
        simp [isUnreservedFormChar] at hlit
  · rw [if_neg hlit]
    have hlow : c.toNat < 128 := by
      rcases Nat.lt_or_ge c.toNat 128 with h | h
      · exact h
      · exact absurd (by simp [h]) hlit
    have hdiv : c.toNat / 16 < 16 := by omega
    have hmod : c.toNat % 16 < 16 := Nat.mod_lt _ (by omega)
    by_cases hsp : (c == ' ') = true
    · rw [if_pos hsp]
      constructor <;> decide
    · rw [if_neg hsp]
      constructor
      · intro hmem
        rw [List.mem_cons, List.mem_cons, List.mem_singleton] at hmem
        rcases hmem with h | h | h
        · exact absurd h (by decide)
        · exact (hexDigitChar_ne _ hdiv).2.1 h.symm
        · exact (hexDigitChar_ne _ hmod).2.1 h.symm
      · intro hmem
        rw [List.mem_cons, List.mem_cons, List.mem_singleton] at hmem
        rcases hmem with h | h | h
        · exact absurd h (by decide)
        · exact (hexDigitChar_ne _ hdiv).2.2.1 h.symm
        · exact (hexDigitChar_ne _ hmod).2.2.1 h.symm

/-- Form-encoding a string never emits the separators `&` or `=`. -/
theorem formEncode_chars (s : List Char) :
    '&' ∉ formEncode s ∧ '=' ∉ formEncode s := by
  induction s with
  | nil => exact ⟨List.not_mem_nil _, List.not_mem_nil _⟩
  | cons c cs ih =>
    rw [formEncode]
    constructor
    · rw [List.mem_append, not_or]
      exact ⟨(formEncodeChar_chars c).1, ih.1⟩
    · rw [List.mem_append, not_or]
      exact ⟨(formEncodeChar_chars c).2, ih.2⟩

/-- A piece without `&` in it is returned whole by the `&`-splitter. -/
theorem splitAmp_no_amp (x : List Char) (hx : '&' ∉ x) : splitAmp x = [x] := by
  induction x with
  | nil => rfl
  | cons c cs ih =>
    rw [List.mem_cons, not_or] at hx
    have hc : (c == '&') = false := by
      simp only [beq_eq_false_iff_ne, ne_eq]
      exact fun h => hx.1 h.symm
    rw [splitAmp.eq_def]
    simp [hc, ih hx.2]

/-- Splitting past a leading piece that holds no `&`. -/
theorem splitAmp_append (x t : List Char) (hx : '&' ∉ x) :
    splitAmp (x ++ '&' :: t) = x :: splitAmp t := by
  induction x with
  | nil =>
    rw [List.nil_append, splitAmp.eq_def]
    simp
  | cons c cs ih =>
    rw [List.mem_cons, not_or] at hx
    have hc : (c == '&') = false := by
      simp only [beq_eq_false_iff_ne, ne_eq]
      exact fun h => hx.1 h.symm
    rw [List.cons_append, splitAmp.eq_def]
    simp [hc, ih hx.2]

/-- The `&`-splitter inverts the `&`-joining loop on amp-free pieces. -/
theorem splitAmp_joinAmp (ps : List (List Char)) (hne : ps ≠ [])
    (h : ∀ p ∈ ps, '&' ∉ p) : splitAmp (joinAmp ps) = ps := by
  induction ps with
  | nil => exact absurd rfl hne
  | cons p ps ih =>
    cases ps with
    | nil => exact splitAmp_no_amp p (h p (List.mem_cons_self p []))
    | cons q qs =>
      show splitAmp (p ++ '&' :: joinAmp (q :: qs)) = p :: q :: qs
      rw [splitAmp_append p _ (h p (List.mem_cons_self p _))]
      rw [ih (by simp) fun r hr => h r (List.mem_cons_of_mem _ hr)]

/-- Splitting at the first `=` inverts writing `key=value` when the key holds
no `=`. -/
theorem splitEq_append (k v : List Char) (hk : '=' ∉ k) :
    splitEq (k ++ '=' :: v) = (k, v) := by
  induction k with
  | nil =>
    rw [List.nil_append, splitEq.eq_def]
    simp
  | cons c cs ih =>
    rw [List.mem_cons, not_or] at hk
    have hc : (c == '=') = false := by
      simp only [beq_eq_false_iff_ne, ne_eq]
      exact fun h => hk.1 h.symm
    rw [List.cons_append, splitEq.eq_def]
    simp [hc, ih hk.2]

/-- Parsing a query component written by the form-urlencoded serializer gives
back exactly the serialized pairs: each key appears once with its own value,
in order, and omitted pairs are absent. -/
theorem parseQuery_serde_urlencoded (args : List (List Char × List Char)) :
    parseQuery (serde_urlencoded_to_string args) = args := by
  cases args with
  | nil => rfl
  | cons p ps =>
    unfold serde_urlencoded_to_string parseQuery
    have hpieces : ∀ q ∈ (p :: ps).map fun r => formEncode r.1 ++ '=' :: formEncode r.2,
        '&' ∉ q := by
      intro q hq
      rw [List.mem_map] at hq
      obtain ⟨r, _, rfl⟩ := hq
      rw [List.mem_append, not_or]
      refine ⟨(formEncode_chars r.1).1, ?_⟩
      rw [List.mem_cons, not_or]
      exact ⟨by decide, (formEncode_chars r.2).1⟩
    have hq0 : joinAmp ((p :: ps).map fun r => formEncode r.1 ++ '=' :: formEncode r.2) ≠ [] := by
      cases ps with
      | nil => simp [joinAmp]
      | cons q qs => simp [joinAmp]
    rw [if_neg (by simpa [List.isEmpty_iff] using hq0)]
    rw [splitAmp_joinAmp _ (by simp) hpieces]
    rw [List.map_map]
    generalize p :: ps = l
    induction l with
    | nil => rfl
    | cons r rs ihl =>
      simp only [List.map_cons, Function.comp]
      rw [splitEq_append _ _ (formEncode_chars r.1).2]
      simp only [formDecode_formEncode]
      rw [show (r.1, r.2) = r from rfl]
      exact congrArg (r :: ·) (by simpa [Function.comp] using ihl)

/-- Form-urldecoding changes nothing on a string free of `%` and `+`. -/
theorem formDecode_id (s : List Char) (h1 : '%' ∉ s) (h2 : '+' ∉ s) :
    formDecode s = s := by
  induction s with
  | nil => rfl
  | cons c cs ih =>
    rw [List.mem_cons, not_or] at h1 h2
    rw [formDecode_cons_of_ne c cs (fun h => h1.1 h.symm) (fun h => h2.1 h.symm)]
    rw [ih h1.2 h2.2]

/-- A raw `key=value` piece free of the separators stays one piece. -/
theorem notMem_raw_piece {x : Char} (k v : List Char) (hk : x ∉ k) (hv : x ∉ v)
    (hne : x ≠ '=') : x ∉ k ++ '=' :: v := by
  rw [List.mem_append, not_or]
  refine ⟨hk, ?_⟩
  rw [List.mem_cons, not_or]
  exact ⟨hne, hv⟩

/-- Parsing a single raw `key=value` query piece whose key is separator-free
and whose value holds no `&`, `%` or `+`. -/
theorem parseQuery_raw_piece (k v : List Char) (hkA : '&' ∉ k) (hkE : '=' ∉ k)
    (hkP : '%' ∉ k) (hkPl : '+' ∉ k) (hvA : '&' ∉ v) (hvP : '%' ∉ v) (hvPl : '+' ∉ v) :
    parseQuery (k ++ '=' :: v) = [(k, v)] := by
  unfold parseQuery
  rw [if_neg (by simp [List.isEmpty_iff])]
  rw [splitAmp_no_amp _ (notMem_raw_piece k v hkA hvA (by decide))]
  simp only [List.map]
  rw [splitEq_append _ _ hkE]
  rw [formDecode_id k hkP hkPl, formDecode_id v hvP hvPl]

/-- Parsing two raw `key=value` query pieces joined with `&`. -/
theorem parseQuery_two_raw_pieces (k1 v1 k2 v2 : List Char)
    (hk1A : '&' ∉ k1) (hk1E : '=' ∉ k1) (hk1P : '%' ∉ k1) (hk1Pl : '+' ∉ k1)
    (hv1A : '&' ∉ v1) (hv1P : '%' ∉ v1) (hv1Pl : '+' ∉ v1)
    (hk2A : '&' ∉ k2) (hk2E : '=' ∉ k2) (hk2P : '%' ∉ k2) (hk2Pl : '+' ∉ k2)
    (hv2A : '&' ∉ v2) (hv2P : '%' ∉ v2) (hv2Pl : '+' ∉ v2) :
    parseQuery ((k1 ++ '=' :: v1) ++ '&' :: (k2 ++ '=' :: v2)) = [(k1, v1), (k2, v2)] := by
  unfold parseQuery
  rw [if_neg (by simp [List.isEmpty_iff])]
  rw [splitAmp_append _ _ (notMem_raw_piece k1 v1 hk1A hv1A (by decide))]
  rw [splitAmp_no_amp _ (notMem_raw_piece k2 v2 hk2A hv2A (by decide))]
  simp only [List.map]
  rw [splitEq_append _ _ hk1E, splitEq_append _ _ hk2E]
  rw [formDecode_id k1 hk1P hk1Pl, formDecode_id v1 hv1P hv1Pl,
    formDecode_id k2 hk2P hk2Pl, formDecode_id v2 hv2P hv2Pl]

/-- One encoded path character is never a segment terminator. -/
theorem encodePathChar_not_segmentEnd (c : Char) :
    ∀ d ∈ encodePathChar c, isSegmentEnd d = false := by
  intro d hd
  unfold encodePathChar at hd
  by_cases hlit : (isUnreservedPathChar c || 128 ≤ c.toNat : Bool) = true
  · rw [if_pos hlit] at hd
    rw [List.mem_singleton] at hd
    subst hd
    by_cases h1 : d = '/'
    · subst h1
      simp [isUnreservedPathChar] at hlit
    · by_cases h2 : d = '?'
      · subst h2
        simp [isUnreservedPathChar] at hlit
      · simp only [isSegmentEnd, Bool.or_eq_false_iff, beq_eq_false_iff_ne, ne_eq]
        exact ⟨h1, h2⟩
  · rw [if_neg hlit] at hd
    have hlow : c.toNat < 128 := by
      rcases Nat.lt_or_ge c.toNat 128 with h | h
      · exact h
      · exact absurd (by simp [h]) hlit
    have hdiv : c.toNat / 16 < 16 := by omega
    have hmod : c.toNat % 16 < 16 := Nat.mod_lt _ (by omega)
    rw [List.mem_cons, List.mem_cons, List.mem_singleton] at hd
    rcases hd with h | h | h
    · subst h
      decide
    · subst h
      simp only [isSegmentEnd, Bool.or_eq_false_iff, beq_eq_false_iff_ne, ne_eq]
      exact ⟨(hexDigitChar_ne _ hdiv).2.2.2.1, (hexDigitChar_ne _ hdiv).2.2.2.2.1⟩
    · subst h
      simp only [isSegmentEnd, Bool.or_eq_false_iff, beq_eq_false_iff_ne, ne_eq]
      exact ⟨(hexDigitChar_ne _ hmod).2.2.2.1, (hexDigitChar_ne _ hmod).2.2.2.2.1⟩

/-- No character of an encoded path segment is a segment terminator. -/
theorem encode_path_not_segmentEnd (s : List Char) :
    ∀ d ∈ encode_path s, isSegmentEnd d = false := by
  induction s with
  | nil => intro d hd; exact absurd hd (List.not_mem_nil d)
  | cons c cs ih =>
    intro d hd
    rw [encode_path, List.mem_append] at hd
    rcases hd with h | h
    · exact encodePathChar_not_segmentEnd c d h
    · exact ih d h

/-- Taking while a predicate holds walks past a block where it always
holds. -/
theorem takeWhile_append_of_all {p : Char → Bool} (a b : List Char)
    (h : ∀ c ∈ a, p c = true) : (a ++ b).takeWhile p = a ++ b.takeWhile p := by
  induction a with
  | nil => simp
  | cons c cs ih =>
    rw [List.cons_append, List.takeWhile_cons, h c (List.mem_cons_self c cs)]
    simp only [if_true]
    rw [ih fun d hd => h d (List.mem_cons_of_mem _ hd)]
    rfl

/-- The first segment after an encoded identifier stops exactly at the next
terminator. -/
theorem firstSegment_encode_cons (s : List Char) (c : Char) (t : List Char)
    (hc : isSegmentEnd c = true) :
    firstSegment (encode_path s ++ c :: t) = encode_path s := by
  unfold firstSegment
  rw [takeWhile_append_of_all _ _ fun d hd => by
    rw [encode_path_not_segmentEnd s d hd]; rfl]
  rw [List.takeWhile_cons, hc]
  simp

/-- Every URL of both modules opens with the account root and then the
encoded account identifier. -/
theorem account_root_shape (aid tail : List Char) :
    List.take 15 ("/v2.1/accounts/".data ++ encode_path aid ++ tail) = "/v2.1/accounts/".data ∧
    List.drop 15 ("/v2.1/accounts/".data ++ encode_path aid ++ tail) =
      encode_path aid ++ tail := by
  constructor
  · rw [List.append_assoc, show (15 : Nat) = ("/v2.1/accounts/".data).length from rfl,
      List.take_left]
  · rw [List.append_assoc, show (15 : Nat) = ("/v2.1/accounts/".data).length from rfl,
      List.drop_left]

/-- C2: every caller-supplied path identifier (accountId, connectId,
paymentId) is percent-encoded before being inserted into the URL path of
every operation of both modules, and percent-decoding the encoded identifier
gives back the original literal value, for arbitrary identifiers. -/
theorem claim_c2_path_identifiers_percent_encoded
    (aid cid pid fd td c e l sp st u : List Char) :
    connect_get_config_url aid =
      "/v2.1/accounts/".data ++ encode_path aid ++ "/connect".data ∧
    connect_put_configuration_url aid =
      "/v2.1/accounts/".data ++ encode_path aid ++ "/connect".data ∧
    connect_post_configuration_url aid =
      "/v2.1/accounts/".data ++ encode_path aid ++ "/connect".data ∧
    connect_get_config_connect_configurations_url aid cid =
      "/v2.1/accounts/".data ++ encode_path aid ++ "/connect/".data ++ encode_path cid ∧
    connect_delete_config_url aid cid =
      "/v2.1/accounts/".data ++ encode_path aid ++ "/connect/".data ++ encode_path cid ∧
    connect_get_user_url aid cid c e l sp st u =
      "/v2.1/accounts/".data ++ encode_path aid ++ "/connect/".data ++ encode_path cid ++
        "/users?".data ++
        serde_urlencoded_to_string (connect_get_user_query_args c e l sp st u) ∧
    billing_get_payment_list_url aid fd td =
      "/v2.1/accounts/".data ++ encode_path aid ++ "/billing_payments?".data ++
        joinAmp (billing_get_payment_list_query_args fd td) ∧
    billing_post_payment_url aid =
      "/v2.1/accounts/".data ++ encode_path aid ++ "/billing_payments".data ∧
    billing_get_payment_url aid pid =
      "/v2.1/accounts/".data ++ encode_path aid ++ "/billing_payments/".data ++
        encode_path pid ∧
    percentDecode (encode_path aid) = aid ∧
    percentDecode (encode_path cid) = cid ∧
    percentDecode (encode_path pid) = pid :=
  ⟨rfl, rfl, rfl, rfl, rfl, rfl, rfl, rfl, rfl, percentDecode_encode_path aid,
    percentDecode_encode_path cid, percentDecode_encode_path pid⟩

/-- C6: `listPayments` on account `A1` with both dates empty issues a GET to
`/v2.1/accounts/A1/billing_payments?` with an empty query component and no
request body. -/
theorem claim_c6_list_payments_scenario :
    billing_get_payment_list_request "A1".data [] [] =
      { method := Method.get,
        url := "/v2.1/accounts/A1/billing_payments?".data,
        body := none } ∧
    joinAmp (billing_get_payment_list_query_args [] []) = [] ∧
    parseQuery (joinAmp (billing_get_payment_list_query_args [] [])) = [] := by
  refine ⟨by decide, rfl, rfl⟩

/-- C8: serializing any `ConnectCustomConfiguration` to JSON, as the
configuration create/update request bodies are built, and decoding that JSON
back yields the original record. -/
theorem claim_c8_configuration_json_roundtrip (r : ConnectCustomConfiguration) :
    ConnectCustomConfiguration.fromJson (ConnectCustomConfiguration.toJson r) = some r := rfl

/-- C10: the value `connect_get_user` hands to `serde_urlencoded::to_string`
is always a sequence of string pairs, and on that shape serialization always
succeeds, so the `.unwrap()` never panics. -/
theorem claim_c10_urlencoded_unwrap_total (c e l sp st u : List Char) :
    serde_urlencoded_to_string_result
        (UrlEncodedInput.pairSeq (connect_get_user_query_args c e l sp st u)) =
      some (serde_urlencoded_to_string (connect_get_user_query_args c e l sp st u)) := rfl

/-- C1 (amended): for every operation of both modules, any error value
produced during the call is propagated to the caller unmodified — the five
GET operations and the DELETE return the collaborator's error verbatim (the
DELETE surfacing a transport failure and a non-2xx status as the matching
transport and status errors), and an encoding failure of the request body is
returned as the serialization error by `connect_put_configuration` and
`connect_post_configuration`; the one exception is `billing_post_payment`,
which panics on its `.unwrap()` when body encoding fails instead of
returning an error. -/
theorem claim_c1_error_propagation
    (respondC : Request → Except ApiError ConnectCustomConfiguration)
    (respondP : Request → Except ApiError BillingPaymentResponse)
    (respondR : Request → Except ApiError ConnectConfigResults)
    (respondU : Request → Except ApiError IntegratedUserInfoList)
    (respondL : Request → Except ApiError BillingPaymentsResponse)
    (respondI : Request → Except ApiError BillingPaymentItem)
    (wire : Request → Except (List Char) HttpResponse)
    (serC : Serializer ConnectCustomConfiguration)
    (serP : Serializer BillingPaymentRequest)
    (aid cid pid fd td c e l sp st u : List Char)
    (cfg : ConnectCustomConfiguration) (pay : BillingPaymentRequest) :
    (serC cfg = Except.error () →
      connect_put_configuration respondC serC aid cfg = Outcome.err ApiError.serialization ∧
      connect_post_configuration respondC serC aid cfg = Outcome.err ApiError.serialization) ∧
    (serP pay = Except.error () →
      billing_post_payment respondP serP aid pay = Outcome.panicked) ∧
    (∀ bytes apiErr, serC cfg = Except.ok bytes →
      respondC
          { method := Method.put, url := connect_put_configuration_url aid,
            body := some bytes } = Except.error apiErr →
      connect_put_configuration respondC serC aid cfg = Outcome.err apiErr) ∧
    (∀ bytes apiErr, serC cfg = Except.ok bytes →
      respondC
          { method := Method.post, url := connect_post_configuration_url aid,
            body := some bytes } = Except.error apiErr →
      connect_post_configuration respondC serC aid cfg = Outcome.err apiErr) ∧
    (∀ bytes apiErr, serP pay = Except.ok bytes →
      respondP
          { method := Method.post, url := billing_post_payment_url aid,
            body := some bytes } = Except.error apiErr →
      billing_post_payment respondP serP aid pay = Outcome.err apiErr) ∧
    (∀ apiErr, respondR (connect_get_config_request aid) = Except.error apiErr →
      connect_get_config respondR aid = Outcome.err apiErr) ∧
    (∀ apiErr,
      respondR (connect_get_config_connect_configurations_request aid cid) =
        Except.error apiErr →
      connect_get_config_connect_configurations respondR aid cid = Outcome.err apiErr) ∧
    (∀ apiErr,
      respondU (connect_get_user_request aid cid c e l sp st u) = Except.error apiErr →
      connect_get_user respondU aid cid c e l sp st u = Outcome.err apiErr) ∧
    (∀ apiErr,
      respondL (billing_get_payment_list_request aid fd td) = Except.error apiErr →
      billing_get_payment_list respondL aid fd td = Outcome.err apiErr) ∧
    (∀ apiErr, respondI (billing_get_payment_request aid pid) = Except.error apiErr →
      billing_get_payment respondI aid pid = Outcome.err apiErr) ∧
    (∀ msg, wire (connect_delete_config_request aid cid) = Except.error msg →
      connect_delete_config wire aid cid = Outcome.err (ApiError.transportFailure msg)) ∧
    (∀ resp, wire (connect_delete_config_request aid cid) = Except.ok resp →
      ¬(200 ≤ resp.statusCode ∧ resp.statusCode < 300) →
      connect_delete_config wire aid cid =
        Outcome.err (ApiError.statusError resp.statusCode resp.respBody)) := by
  refine ⟨fun h => ⟨?_, ?_⟩, fun h => ?_, fun bytes apiErr h1 h2 => ?_,
    fun bytes apiErr h1 h2 => ?_, fun bytes apiErr h1 h2 => ?_, fun apiErr h2 => ?_,
    fun apiErr h2 => ?_, fun apiErr h2 => ?_, fun apiErr h2 => ?_, fun apiErr h2 => ?_,
    fun msg h2 => ?_, fun resp h2 h3 => ?_⟩
  · simp [connect_put_configuration, h]
  · simp [connect_post_configuration, h]
  · simp [billing_post_payment, h]
  · simp [connect_put_configuration, h1, h2, liftClient]
  · simp [connect_post_configuration, h1, h2, liftClient]
  · simp [billing_post_payment, h1, h2, liftClient]
  · simp [connect_get_config, h2, liftClient]
  · simp [connect_get_config_connect_configurations, h2, liftClient]
  · simp [connect_get_user, h2, liftClient]
  · simp [billing_get_payment_list, h2, liftClient]
  · simp [billing_get_payment, h2, liftClient]
  · simp [connect_delete_config, h2]
  · simp only [connect_delete_config, h2]
    rw [if_neg h3]

/-- Concrete instantiation of the amended C1 theorem: a failing encoder makes
the configuration update return the serialization error and the payment post
panic, and client errors of every kind come back unmodified from the GET,
POST and DELETE operations. -/
theorem claim_c1_error_propagation_witness :
    connect_put_configuration respondOkConnect serFailConnect "A1".data sampleConfig =
      Outcome.err ApiError.serialization ∧
    billing_post_payment respondOkPayment serFailPayment "A1".data samplePaymentBody =
      Outcome.panicked ∧
    billing_post_payment respondTransportPayment serOkPayment "A1".data samplePaymentBody =
      Outcome.err (ApiError.transportFailure "boom".data) ∧
    connect_get_config respondErrConfigResults "A1".data =
      Outcome.err (ApiError.statusError 500 [1]) ∧
    connect_get_config_connect_configurations respondErrConfigResults "A1".data "C1".data =
      Outcome.err (ApiError.statusError 500 [1]) ∧
    connect_get_user respondErrUserList "A1".data "C1".data [] [] [] [] [] [] =
      Outcome.err (ApiError.transportFailure "down".data) ∧
    billing_get_payment_list respondErrPaymentsList "A1".data [] [] =
      Outcome.err ApiError.serialization ∧
    billing_get_payment respondErrPaymentItem "A1".data "P1".data =
      Outcome.err (ApiError.statusError 403 []) ∧
    connect_delete_config wireFail "A1".data "C1".data =
      Outcome.err (ApiError.transportFailure "down".data) ∧
    connect_delete_config wire404 "A1".data "C1".data =
      Outcome.err (ApiError.statusError 404 [7]) := by
  have h1 := claim_c1_error_propagation respondOkConnect respondOkPayment
    respondErrConfigResults respondErrUserList respondErrPaymentsList respondErrPaymentItem
    wireFail serFailConnect serFailPayment "A1".data "C1".data "P1".data [] [] [] [] [] []
    [] [] sampleConfig samplePaymentBody
  have h2 := claim_c1_error_propagation respondOkConnect respondTransportPayment
    respondErrConfigResults respondErrUserList respondErrPaymentsList respondErrPaymentItem
    wire404 serFailConnect serOkPayment "A1".data "C1".data "P1".data [] [] [] [] [] []
    [] [] sampleConfig samplePaymentBody
  refine ⟨(h1.1 rfl).1, h1.2.1 rfl,
    h2.2.2.2.2.1 [] (ApiError.transportFailure "boom".data) rfl rfl,
    h1.2.2.2.2.2.1 (ApiError.statusError 500 [1]) rfl,
    h1.2.2.2.2.2.2.1 (ApiError.statusError 500 [1]) rfl,
    h1.2.2.2.2.2.2.2.1 (ApiError.transportFailure "down".data) rfl,
    h1.2.2.2.2.2.2.2.2.1 ApiError.serialization rfl,
    h1.2.2.2.2.2.2.2.2.2.1 (ApiError.statusError 403 []) rfl,
    h1.2.2.2.2.2.2.2.2.2.2.1 "down".data rfl,
    h2.2.2.2.2.2.2.2.2.2.2.2 { statusCode := 404, respBody := [7] } rfl (by decide)⟩

/-- C1 as stated is false: with an encoder that fails, `billing_post_payment`
panics rather than returning the serialization error to the caller. -/
theorem claim_c1_counterexample :
    billing_post_payment respondOkPayment serFailPayment "A1".data samplePaymentBody =
      Outcome.panicked ∧
    (Outcome.panicked : Outcome BillingPaymentResponse) ≠
      Outcome.err ApiError.serialization :=
  ⟨rfl, by decide⟩

/-- C7: `connect_delete_config` returns the unit value with no error on any
2xx response and returns a status error carrying code 404 on any 404
response. -/
theorem claim_c7_delete_config_status (wire : Request → Except (List Char) HttpResponse)
    (aid cid : List Char) (resp : HttpResponse)
    (h : wire (connect_delete_config_request aid cid) = Except.ok resp) :
    (200 ≤ resp.statusCode → resp.statusCode < 300 →
      connect_delete_config wire aid cid = Outcome.ok ()) ∧
    (resp.statusCode = 404 →
      connect_delete_config wire aid cid =
        Outcome.err (ApiError.statusError 404 resp.respBody)) := by
  constructor
  · intro h1 h2
    simp only [connect_delete_config, h]
    rw [if_pos ⟨h1, h2⟩]
  · intro h404
    simp only [connect_delete_config, h]
    rw [if_neg (by omega), h404]

/-- Concrete instantiation of the C7 theorem at a 200 wire and a 404 wire. -/
theorem claim_c7_delete_config_status_witness :
    connect_delete_config wire200 "A1".data "C1".data = Outcome.ok () ∧
    connect_delete_config wire404 "A1".data "C1".data =
      Outcome.err (ApiError.statusError 404 [7]) :=
  ⟨(claim_c7_delete_config_status wire200 "A1".data "C1".data
      { statusCode := 200, respBody := [] } rfl).1 (by decide) (by decide),
   (claim_c7_delete_config_status wire404 "A1".data "C1".data
      { statusCode := 404, respBody := [7] } rfl).2 rfl⟩

/-- C3 as stated is false for `listPayments`: the raw from-date value
`a&from_date=b` yields a query whose parse carries two `from_date` pairs
instead of exactly one pair holding that value. -/
theorem claim_c3_counterexample :
    (parseQuery (joinAmp
        (billing_get_payment_list_query_args "a&from_date=b".data []))).countP
      (fun p => p.1 == "from_date".data) = 2 := by
  decide

/-- C3 (amended): for `getUsers` every empty filter is absent from the query
and every non-empty filter contributes exactly its own decoded `key=value`
pair; for `listPayments` the same holds provided the date values contain no
`&`, `%` or `+`, because they are spliced into the query raw. -/
theorem claim_c3_query_filters (c e l sp st u fd td : List Char)
    (hfdA : '&' ∉ fd) (hfdP : '%' ∉ fd) (hfdPl : '+' ∉ fd)
    (htdA : '&' ∉ td) (htdP : '%' ∉ td) (htdPl : '+' ∉ td) :
    parseQuery (serde_urlencoded_to_string (connect_get_user_query_args c e l sp st u)) =
      connect_get_user_query_args c e l sp st u ∧
    parseQuery (joinAmp (billing_get_payment_list_query_args fd td)) =
      (if !fd.isEmpty then [("from_date".data, fd)] else []) ++
      (if !td.isEmpty then [("to_date".data, td)] else []) := by
  refine ⟨parseQuery_serde_urlencoded _, ?_⟩
  by_cases hfd : fd.isEmpty <;> by_cases htd : td.isEmpty
  · simp [billing_get_payment_list_query_args, hfd, htd, joinAmp, parseQuery]
  · have h1 : billing_get_payment_list_query_args fd td = ["to_date=".data ++ td] := by
      simp [billing_get_payment_list_query_args, hfd, htd]
    rw [h1]
    rw [show joinAmp ["to_date=".data ++ td] = "to_date".data ++ '=' :: td from rfl]
    rw [parseQuery_raw_piece "to_date".data td (by decide) (by decide) (by decide)
      (by decide) htdA htdP htdPl]
    simp [hfd, htd]
  · have h1 : billing_get_payment_list_query_args fd td = ["from_date=".data ++ fd] := by
      simp [billing_get_payment_list_query_args, hfd, htd]
    rw [h1]
    rw [show joinAmp ["from_date=".data ++ fd] = "from_date".data ++ '=' :: fd from rfl]
    rw [parseQuery_raw_piece "from_date".data fd (by decide) (by decide) (by decide)
      (by decide) hfdA hfdP hfdPl]
    simp [hfd, htd]
  · have h1 : billing_get_payment_list_query_args fd td =
        ["from_date=".data ++ fd, "to_date=".data ++ td] := by
      simp [billing_get_payment_list_query_args, hfd, htd]
    rw [h1]
    rw [show joinAmp ["from_date=".data ++ fd, "to_date=".data ++ td] =
      ("from_date".data ++ '=' :: fd) ++ '&' :: ("to_date".data ++ '=' :: td) from rfl]
    rw [parseQuery_two_raw_pieces "from_date".data fd "to_date".data td
      (by decide) (by decide) (by decide) (by decide) hfdA hfdP hfdPl
      (by decide) (by decide) (by decide) (by decide) htdA htdP htdPl]
    simp [hfd, htd]

/-- Concrete instantiation of the amended C3 theorem. -/
theorem claim_c3_query_filters_witness :
    parseQuery (serde_urlencoded_to_string
        (connect_get_user_query_args "5".data [] [] [] "Active".data [])) =
      [("count".data, "5".data), ("status".data, "Active".data)] ∧
    parseQuery (joinAmp (billing_get_payment_list_query_args "2020-01-01".data [])) =
      [("from_date".data, "2020-01-01".data)] := by
  have h := claim_c3_query_filters "5".data [] [] [] "Active".data [] "2020-01-01".data []
    (by decide) (by decide) (by decide) (by decide) (by decide) (by decide)
  constructor
  · rw [h.1]
    decide
  · rw [h.2]
    decide

/-- C4: `listPayments` splices its date values into `from_date=...` pieces
raw, while `getUsers` passes every pair through the structured
form-urlencoded serializer, so a value with reserved characters is encoded
differently by the two operations. -/
theorem claim_c4_query_encoding_divergence (v : List Char) (hv : v ≠ []) :
    joinAmp (billing_get_payment_list_query_args v []) = "from_date=".data ++ v ∧
    serde_urlencoded_to_string (connect_get_user_query_args v [] [] [] [] []) =
      "count=".data ++ formEncode v ∧
    formEncode "a b".data ≠ "a b".data := by
  have hv2 : v.isEmpty = false := by
    rw [Bool.eq_false_iff]
    intro hcon
    exact hv (List.isEmpty_iff.mp hcon)
  refine ⟨?_, ?_, by decide⟩
  · simp [billing_get_payment_list_query_args, hv2, joinAmp]
  · simp [connect_get_user_query_args, hv2, serde_urlencoded_to_string, joinAmp,
      show formEncode "count".data = "count".data from by decide]

/-- Concrete instantiation of the C4 theorem at the value `a b`: the payments
piece keeps the space raw while the Connect encoder writes `a+b`. -/
theorem claim_c4_query_encoding_divergence_witness :
    joinAmp (billing_get_payment_list_query_args "a b".data []) = "from_date=a b".data ∧
    serde_urlencoded_to_string (connect_get_user_query_args "a b".data [] [] [] [] []) =
      "count=a+b".data := by
  have h := claim_c4_query_encoding_divergence "a b".data (by decide)
  constructor
  · rw [h.1]
    decide
  · rw [h.2.1]
    decide

/-- C5: the `getUsers` query contains exactly the pairs built from the
non-empty filters, joined with `&`, in the enumerated filter order: count,
email_substring, list_included_users, start_position, status,
user_name_substring. -/
theorem claim_c5_get_user_query_order (c e l sp st u : List Char) :
    parseQuery (serde_urlencoded_to_string (connect_get_user_query_args c e l sp st u)) =
      List.filter (fun p => !p.2.isEmpty)
        [("count".data, c), ("email_substring".data, e), ("list_included_users".data, l),
          ("start_position".data, sp), ("status".data, st),
          ("user_name_substring".data, u)] := by
  rw [parseQuery_serde_urlencoded]
  by_cases h1 : c.isEmpty <;> by_cases h2 : e.isEmpty <;> by_cases h3 : l.isEmpty <;>
    by_cases h4 : sp.isEmpty <;> by_cases h5 : st.isEmpty <;> by_cases h6 : u.isEmpty <;>
    simp [connect_get_user_query_args, List.filter_cons, h1, h2, h3, h4, h5, h6]

/-- C9: for every operation of both modules and all argument values, the URL
opens with `/v2.1/accounts/` followed by the percent-encoded accountId, and
the encoded accountId is the whole first path segment after that root. -/
theorem claim_c9_account_root_invariant (aid cid pid fd td c e l sp st u : List Char) :
    (List.take 15 (connect_get_config_url aid) = "/v2.1/accounts/".data ∧
      firstSegment (List.drop 15 (connect_get_config_url aid)) = encode_path aid) ∧
    (List.take 15 (connect_put_configuration_url aid) = "/v2.1/accounts/".data ∧
      firstSegment (List.drop 15 (connect_put_configuration_url aid)) = encode_path aid) ∧
    (List.take 15 (connect_post_configuration_url aid) = "/v2.1/accounts/".data ∧
      firstSegment (List.drop 15 (connect_post_configuration_url aid)) = encode_path aid) ∧
    (List.take 15 (connect_get_config_connect_configurations_url aid cid) =
        "/v2.1/accounts/".data ∧
      firstSegment (List.drop 15 (connect_get_config_connect_configurations_url aid cid)) =
        encode_path aid) ∧
    (List.take 15 (connect_delete_config_url aid cid) = "/v2.1/accounts/".data ∧
      firstSegment (List.drop 15 (connect_delete_config_url aid cid)) = encode_path aid) ∧
    (List.take 15 (connect_get_user_url aid cid c e l sp st u) = "/v2.1/accounts/".data ∧
      firstSegment (List.drop 15 (connect_get_user_url aid cid c e l sp st u)) =
        encode_path aid) ∧
    (List.take 15 (billing_get_payment_list_url aid fd td) = "/v2.1/accounts/".data ∧
      firstSegment (List.drop 15 (billing_get_payment_list_url aid fd td)) =
        encode_path aid) ∧
    (List.take 15 (billing_post_payment_url aid) = "/v2.1/accounts/".data ∧
      firstSegment (List.drop 15 (billing_post_payment_url aid)) = encode_path aid) ∧
    (List.take 15 (billing_get_payment_url aid pid) = "/v2.1/accounts/".data ∧
      firstSegment (List.drop 15 (billing_get_payment_url aid pid)) = encode_path aid) := by
  refine ⟨⟨?_, ?_⟩, ⟨?_, ?_⟩, ⟨?_, ?_⟩, ⟨?_, ?_⟩, ⟨?_, ?_⟩, ⟨?_, ?_⟩, ⟨?_, ?_⟩,
    ⟨?_, ?_⟩, ⟨?_, ?_⟩⟩
  · exact (account_root_shape aid "/connect".data).1
  · rw [show connect_get_config_url aid =
        "/v2.1/accounts/".data ++ encode_path aid ++ "/connect".data from rfl,
      (account_root_shape aid "/connect".data).2]
    exact firstSegment_encode_cons aid '/' "connect".data (by decide)
  · exact (account_root_shape aid "/connect".data).1
  · rw [show connect_put_configuration_url aid =
        "/v2.1/accounts/".data ++ encode_path aid ++ "/connect".data from rfl,
      (account_root_shape aid "/connect".data).2]
    exact firstSegment_encode_cons aid '/' "connect".data (by decide)
  · exact (account_root_shape aid "/connect".data).1
  · rw [show connect_post_configuration_url aid =
        "/v2.1/accounts/".data ++ encode_path aid ++ "/connect".data from rfl,
      (account_root_shape aid "/connect".data).2]
    exact firstSegment_encode_cons aid '/' "connect".data (by decide)
  · rw [show connect_get_config_connect_configurations_url aid cid =
        "/v2.1/accounts/".data ++ encode_path aid ++
          ("/connect/".data ++ encode_path cid) from by
      simp [connect_get_config_connect_configurations_url, List.append_assoc]]
    exact (account_root_shape aid ("/connect/".data ++ encode_path cid)).1
  · rw [show connect_get_config_connect_configurations_url aid cid =
        "/v2.1/accounts/".data ++ encode_path aid ++
          ("/connect/".data ++ encode_path cid) from by
      simp [connect_get_config_connect_configurations_url, List.append_assoc],
      (account_root_shape aid ("/connect/".data ++ encode_path cid)).2]
    exact firstSegment_encode_cons aid '/' ("connect/".data ++ encode_path cid) (by decide)
  · rw [show connect_delete_config_url aid cid =
        "/v2.1/accounts/".data ++ encode_path aid ++
          ("/connect/".data ++ encode_path cid) from by
      simp [connect_delete_config_url, List.append_assoc]]
    exact (account_root_shape aid ("/connect/".data ++ encode_path cid)).1
  · rw [show connect_delete_config_url aid cid =
        "/v2.1/accounts/".data ++ encode_path aid ++
          ("/connect/".data ++ encode_path cid) from by
      simp [connect_delete_config_url, List.append_assoc],
      (account_root_shape aid ("/connect/".data ++ encode_path cid)).2]
    exact firstSegment_encode_cons aid '/' ("connect/".data ++ encode_path cid) (by decide)
  · rw [show connect_get_user_url aid cid c e l sp st u =
        "/v2.1/accounts/".data ++ encode_path aid ++
          ("/connect/".data ++ (encode_path cid ++ ("/users?".data ++
            serde_urlencoded_to_string
              (connect_get_user_query_args c e l sp st u)))) from by
      simp [connect_get_user_url, List.append_assoc]]
    exact (account_root_shape aid _).1
  · rw [show connect_get_user_url aid cid c e l sp st u =
        "/v2.1/accounts/".data ++ encode_path aid ++
          ("/connect/".data ++ (encode_path cid ++ ("/users?".data ++
            serde_urlencoded_to_string
              (connect_get_user_query_args c e l sp st u)))) from by
      simp [connect_get_user_url, List.append_assoc],
      (account_root_shape aid ("/connect/".data ++ (encode_path cid ++ ("/users?".data ++
        serde_urlencoded_to_string (connect_get_user_query_args c e l sp st u))))).2]
    exact firstSegment_encode_cons aid '/'
      ("connect/".data ++ (encode_path cid ++ ("/users?".data ++
        serde_urlencoded_to_string (connect_get_user_query_args c e l sp st u))))
      (by decide)
  · rw [show billing_get_payment_list_url aid fd td =
        "/v2.1/accounts/".data ++ encode_path aid ++
          ("/billing_payments?".data ++
            joinAmp (billing_get_payment_list_query_args fd td)) from by
      simp [billing_get_payment_list_url, List.append_assoc]]
    exact (account_root_shape aid _).1
  · rw [show billing_get_payment_list_url aid fd td =
        "/v2.1/accounts/".data ++ encode_path aid ++
          ("/billing_payments?".data ++
            joinAmp (billing_get_payment_list_query_args fd td)) from by
      simp [billing_get_payment_list_url, List.append_assoc],
      (account_root_shape aid ("/billing_payments?".data ++
        joinAmp (billing_get_payment_list_query_args fd td))).2]
    exact firstSegment_encode_cons aid '/'
      ("billing_payments?".data ++ joinAmp (billing_get_payment_list_query_args fd td))
      (by decide)
  · exact (account_root_shape aid "/billing_payments".data).1
  · rw [show billing_post_payment_url aid =
        "/v2.1/accounts/".data ++ encode_path aid ++ "/billing_payments".data from rfl,
      (account_root_shape aid "/billing_payments".data).2]
    exact firstSegment_encode_cons aid '/' "billing_payments".data (by decide)
  · rw [show billing_get_payment_url aid pid =
        "/v2.1/accounts/".data ++ encode_path aid ++
          ("/billing_payments/".data ++ encode_path pid) from by
      simp [billing_get_payment_url, List.append_assoc]]
    exact (account_root_shape aid ("/billing_payments/".data ++ encode_path pid)).1
  · rw [show billing_get_payment_url aid pid =
        "/v2.1/accounts/".data ++ encode_path aid ++
          ("/billing_payments/".data ++ encode_path pid) from by
      simp [billing_get_payment_url, List.append_assoc],
      (account_root_shape aid ("/billing_payments/".data ++ encode_path pid)).2]
    exact firstSegment_encode_cons aid '/' ("billing_payments/".data ++ encode_path pid)
      (by decide)

end Docusign
